import Mathlib

/-!
Verification of the pylok advisory file-lock library (src/pylok.py).

The embedding models the filesystem as a partial map from path strings to
file contents plus a list of existing directories.  Python dictionaries are
modelled as insertion-ordered association lists with Python's update
semantics (existing keys keep their position, new keys are appended).
Exceptions are modelled with an error type whose constructors mirror the
exception classes of the source; the controller returns the filesystem
state at exit together with either the resulting dictionary or the raised
error, so that mutations performed before a raise remain observable.
-/

namespace Pylok

/-- Scalar values stored in metadata dictionaries: Python `None` or a string. -/
inductive Val where
  | null : Val
  | str : String → Val
deriving DecidableEq, Repr

/-- A Python dictionary with string keys, as an insertion-ordered association list. -/
abbrev Dict := List (String × Val)

/-- Python `d[k]`: first binding of `k`, if any. -/
def dictGet : Dict → String → Option Val
  | [], _ => none
  | p :: rest, k => if p.1 = k then some p.2 else dictGet rest k

/-- Python `d[k] = v`: replace the binding in place, else append at the end. -/
def dictSet : Dict → String → Val → Dict
  | [], k, v => [(k, v)]
  | p :: rest, k, v => if p.1 = k then (k, v) :: rest else p :: dictSet rest k v

/-- Python `d.update(u)`: set each binding of `u` in order. -/
def dictUpdate (d u : Dict) : Dict :=
  u.foldl (fun acc p => dictSet acc p.1 p.2) d

/-- Content of a file: empty (as created by `open(f, 'a')` on a missing path)
or a YAML-serialized dictionary (as written by `yaml.dump`). -/
inductive Content where
  | empty : Content
  | yaml : Dict → Content
deriving DecidableEq, Repr

/-- Filesystem state: the directories that exist and a partial map from
paths to file contents. -/
structure FS where
  dirs : List String
  files : String → Option Content

/-- The exception classes of src/pylok.py. -/
inductive PyErr where
  | lockFileNotPresentError : PyErr
  | lockFilePresentError : PyErr
  | lockFileNotPresentForRemoval : PyErr
  | lockActionError : PyErr
deriving DecidableEq, Repr

deriving instance DecidableEq for Except

/-- A path names an existing file. -/
def fsExists (fs : FS) (p : String) : Bool :=
  (fs.files p).isSome

/-- `open(p, 'a').close()`: create an empty file when absent, keep content when present. -/
def fsTouch (fs : FS) (p : String) : FS :=
  ⟨fs.dirs, fun q => if q = p then some ((fs.files p).getD Content.empty) else fs.files q⟩

/-- `open(p, 'w')` followed by writing `c`: truncate and replace the content. -/
def fsWrite (fs : FS) (p : String) (c : Content) : FS :=
  ⟨fs.dirs, fun q => if q = p then some c else fs.files q⟩

/-- `os.remove(p)` after it succeeded: the file is gone. -/
def fsRemoveFile (fs : FS) (p : String) : FS :=
  ⟨fs.dirs, fun q => if q = p then none else fs.files q⟩

/-- src/pylok.py line 160: `lock_file_name = "{}.lock".format(lock_object)`. -/
def lock_file_name (lock_object : String) : String :=
  lock_object ++ ".lock"

/-- src/pylok.py line 161: `lock_file = "{}{}".format(lock_file_directory, lock_file_name)`.
Plain string concatenation: no path separator is inserted. -/
def lock_file_path (lock_file_directory lock_object : String) : String :=
  lock_file_directory ++ lock_file_name lock_object

/-- src/pylok.py lines 252-258: `is_locked` opens the path for reading and
returns whether that succeeded; any failure counts as "not locked". -/
def is_locked (fs : FS) (lock_file : String) : Bool :=
  fsExists fs lock_file

/-- src/pylok.py lines 48-53: raise `LockFileNotPresentError` unless the lock file exists. -/
def ensure_lock (fs : FS) (lock_file : String) : Except PyErr Bool :=
  if is_locked fs lock_file = false then .error PyErr.lockFileNotPresentError
  else .ok true

/-- src/pylok.py lines 55-60: raise `LockFilePresentError` if the lock file exists. -/
def ensure_unlock (fs : FS) (lock_file : String) : Except PyErr Bool :=
  if is_locked fs lock_file then .error PyErr.lockFilePresentError
  else .ok true

/-- src/pylok.py lines 62-68: `os.makedirs`, swallowing only the
already-exists error; creating an existing directory is a no-op. -/
def create_lock_dir (fs : FS) (lock_file_directory : String) : FS :=
  if fs.dirs.contains lock_file_directory then fs
  else ⟨lock_file_directory :: fs.dirs, fs.files⟩

/-- src/pylok.py lines 244-245: `open(lock_file, 'a').close()`. -/
def create_lock_file (fs : FS) (lock_file : String) : FS :=
  fsTouch fs lock_file

/-- src/pylok.py lines 247-250: recompute `"{}{}.lock".format(location, lock_object)`
and overwrite it with the YAML serialization of `lock_data`. -/
def write_to_lock_file (fs : FS) (location lock_object : String) (lock_data : Dict) : FS :=
  fsWrite fs (lock_file_path location lock_object) (Content.yaml lock_data)

/-- src/pylok.py lines 260-261: `os.remove(lock_file)`, which fails when the path is absent. -/
def remove_lock_file (fs : FS) (lock_file : String) : Except Unit FS :=
  if fsExists fs lock_file then .ok (fsRemoveFile fs lock_file)
  else .error ()

/-- src/pylok.py lines 71-241: the controller.  Returns the filesystem state
at exit paired with either the updated dictionary or the raised error.
The branches mirror the source: `status` (lines 166-181), `unlock`
(lines 183-207, where the bare `except` around `remove_lock_file` re-raises
`LockFileNotPresentError`, and a lock file still present after removal
raises `LockFileNotPresentForRemoval`), `lock` (lines 209-233, where a lock
file absent after the write raises `LockFileNotPresentError`), otherwise
`LockActionError` (line 236).  Every branch ends by updating `lock_action`
into the dictionary (line 240), which for the `lock` branch happens after
`write_to_lock_file` has already persisted the dictionary. -/
def lock (fs0 : FS) (lock_file_directory lock_object : String) (lock_data : Dict)
    (lock_action : String) (ensure_unlock_state ensure_lock_state : Bool) :
    FS × Except PyErr Dict :=
  let lock_file := lock_file_path lock_file_directory lock_object
  let fs := create_lock_dir fs0 lock_file_directory
  if lock_action = "status" then
    let file_is_locked := is_locked fs lock_file
    let lock_file_val : Val := if file_is_locked = false then Val.null else Val.str lock_file
    let current_lock_status : String := if file_is_locked = false then "unlocked" else "locked"
    let return_info : Dict :=
      [("lock_file_location", lock_file_val),
       ("lock_file_status", Val.str current_lock_status)]
    let lock_data := dictUpdate lock_data return_info
    (fs, .ok (dictUpdate lock_data [("lock_action", Val.str lock_action)]))
  else if lock_action = "unlock" then
    match (if ensure_lock_state then ensure_lock fs lock_file else .ok true) with
    | .error e => (fs, .error e)
    | .ok _ =>
      match remove_lock_file fs lock_file with
      | .error _ => (fs, .error PyErr.lockFileNotPresentError)
      | .ok fs1 =>
        if is_locked fs1 lock_file = false then
          let return_info : Dict :=
            [("lock_file_location", Val.null),
             ("lock_file_status", Val.str "unlocked")]
          let lock_data := dictUpdate lock_data return_info
          (fs1, .ok (dictUpdate lock_data [("lock_action", Val.str lock_action)]))
        else (fs1, .error PyErr.lockFileNotPresentForRemoval)
  else if lock_action = "lock" then
    match (if ensure_unlock_state then ensure_unlock fs lock_file else .ok true) with
    | .error e => (fs, .error e)
    | .ok _ =>
      let fs1 := create_lock_file fs lock_file
      let return_info : Dict :=
        [("lock_file_location", Val.str lock_file),
         ("lock_file_status", Val.str "locked")]
      let lock_data := dictUpdate lock_data return_info
      let fs2 := write_to_lock_file fs1 lock_file_directory lock_object lock_data
      if is_locked fs2 lock_file then
        (fs2, .ok (dictUpdate lock_data [("lock_action", Val.str lock_action)]))
      else (fs2, .error PyErr.lockFileNotPresentError)
  else (fs, .error PyErr.lockActionError)

/-- Deserialized content of the file at `p`, looked up at key `k`. -/
def fileYamlGet (fs : FS) (p k : String) : Option Val :=
  match fs.files p with
  | some (Content.yaml d) => dictGet d k
  | _ => none

/-! ### Sample filesystem states used in concrete runs -/

/-- A lock directory that exists and holds no files. -/
def sampleEmpty : FS := ⟨["d/"], fun _ => none⟩

/-- A filesystem with no directories and no files. -/
def sampleNoDir : FS := ⟨[], fun _ => none⟩

/-- A lock directory holding an existing lock file for resource `r`
with a previous holder's metadata. -/
def sampleLocked : FS :=
  ⟨["d/"], fun q => if q = "d/r.lock" then some (Content.yaml [("owner", Val.str "alice")])
    else none⟩

/-- First call of a two-call sequence in which both calls omit the metadata
argument: `lock('d/', 'a')` (default action `status`). -/
def sharedCall1 : FS × Except PyErr Dict :=
  lock sampleEmpty "d/" "a" [] "status" false false

/-- The dictionary object left behind by `sharedCall1`.  In the source the
default `lock_data={}` is evaluated once, and every call that omits
`lock_data` receives that same object, which the call then mutates in
place; so the second metadata-omitting call starts from the dictionary the
first call left behind rather than from a fresh empty mapping. -/
def sharedDict : Dict := sharedCall1.2.toOption.getD []

/-! ### Basic lemmas about the dictionary and filesystem operations -/

theorem dictGet_set_self (d : Dict) (k : String) (v : Val) :
    dictGet (dictSet d k v) k = some v := by
  induction d with
  | nil => simp [dictSet, dictGet]
  | cons p rest ih =>
    by_cases h : p.1 = k
    · simp [dictSet, dictGet, h]
    · simp [dictSet, dictGet, h, ih]

theorem dictGet_set_ne (d : Dict) (k k' : String) (v : Val) (h : k' ≠ k) :
    dictGet (dictSet d k' v) k = dictGet d k := by
  induction d with
  | nil => simp [dictSet, dictGet, h]
  | cons p rest ih =>
    by_cases hp : p.1 = k'
    · simp [dictSet, dictGet, hp, h]
    · simp only [dictSet, if_neg hp, dictGet]
      by_cases hk : p.1 = k
      · simp [hk]
      · simp [hk, ih]

theorem dictUpdate_two (d : Dict) (k1 k2 : String) (v1 v2 : Val) :
    dictUpdate d [(k1, v1), (k2, v2)] = dictSet (dictSet d k1 v1) k2 v2 := rfl

theorem dictUpdate_one (d : Dict) (k : String) (v : Val) :
    dictUpdate d [(k, v)] = dictSet d k v := rfl

theorem create_lock_dir_files (fs : FS) (dir : String) :
    (create_lock_dir fs dir).files = fs.files := by
  unfold create_lock_dir
  split <;> rfl

theorem is_locked_create_lock_dir (fs : FS) (dir p : String) :
    is_locked (create_lock_dir fs dir) p = is_locked fs p := by
  simp [is_locked, fsExists, create_lock_dir_files]

theorem fsWrite_at (fs : FS) (p : String) (c : Content) :
    (fsWrite fs p c).files p = some c := by
  simp [fsWrite]

theorem fsWrite_ne (fs : FS) (p q : String) (c : Content) (h : q ≠ p) :
    (fsWrite fs p c).files q = fs.files q := by
  simp [fsWrite, h]

theorem is_locked_fsWrite_self (fs : FS) (p : String) (c : Content) :
    is_locked (fsWrite fs p c) p = true := by
  simp [is_locked, fsExists, fsWrite]

theorem fsTouch_ne (fs : FS) (p q : String) (h : q ≠ p) :
    (fsTouch fs p).files q = fs.files q := by
  simp [fsTouch, h]

theorem fsRemoveFile_at (fs : FS) (p : String) :
    (fsRemoveFile fs p).files p = none := by
  simp [fsRemoveFile]

theorem fsRemoveFile_ne (fs : FS) (p q : String) (h : q ≠ p) :
    (fsRemoveFile fs p).files q = fs.files q := by
  simp [fsRemoveFile, h]

theorem is_locked_fsRemoveFile_self (fs : FS) (p : String) :
    is_locked (fsRemoveFile fs p) p = false := by
  simp [is_locked, fsExists, fsRemoveFile]

theorem create_lock_dir_dirs_contains (fs : FS) (dir : String) :
    (create_lock_dir fs dir).dirs.contains dir = true := by
  unfold create_lock_dir
  split
  case isTrue h => exact h
  case isFalse h => simp

theorem create_lock_dir_of_contains (fs : FS) (dir : String)
    (h : fs.dirs.contains dir = true) : create_lock_dir fs dir = fs := by
  unfold create_lock_dir
  rw [if_pos h]

theorem files_eq_none_of_fsExists_false (fs : FS) (p : String)
    (h : fsExists fs p = false) : fs.files p = none := by
  unfold fsExists at h
  cases hc : fs.files p with
  | none => rfl
  | some c => rw [hc] at h; simp at h

/-! ### Per-branch characterizations of the controller -/

/-- The `status` branch: the filesystem (beyond directory creation) is
untouched and the dictionary is merged as in lines 166-181 and 240. -/
theorem run_status (fs : FS) (dir obj : String) (d : Dict) (u l : Bool) :
    lock fs dir obj d "status" u l =
      (create_lock_dir fs dir,
       .ok (dictUpdate (dictUpdate d
         [("lock_file_location",
             if is_locked (create_lock_dir fs dir) (lock_file_path dir obj) = false then Val.null
             else Val.str (lock_file_path dir obj)),
          ("lock_file_status",
             Val.str (if is_locked (create_lock_dir fs dir) (lock_file_path dir obj) = false
               then "unlocked" else "locked"))])
         [("lock_action", Val.str "status")])) := rfl

/-- The `lock` branch with both precondition flags clear always succeeds:
touch, merge, write the merged dictionary, verify (which holds since the
write just created the file), and only then add `lock_action`. -/
theorem run_lock_noflags (fs : FS) (dir obj : String) (d : Dict) :
    lock fs dir obj d "lock" false false =
      (fsWrite (fsTouch (create_lock_dir fs dir) (lock_file_path dir obj))
         (lock_file_path dir obj)
         (Content.yaml (dictUpdate d
           [("lock_file_location", Val.str (lock_file_path dir obj)),
            ("lock_file_status", Val.str "locked")])),
       .ok (dictUpdate (dictUpdate d
           [("lock_file_location", Val.str (lock_file_path dir obj)),
            ("lock_file_status", Val.str "locked")])
         [("lock_action", Val.str "lock")])) := by
  simp only [lock, if_neg (show ¬("lock" : String) = "status" by decide),
    if_neg (show ¬("lock" : String) = "unlock" by decide), if_pos rfl, if_true,
    Bool.false_eq_true, if_false, create_lock_file, write_to_lock_file,
    is_locked_fsWrite_self]

/-- The `lock` branch with `ensure_unlock_state` set on a locked resource
raises `LockFilePresentError` with the files untouched. -/
theorem run_lock_ensure_locked (fs : FS) (dir obj : String) (d : Dict) (l : Bool)
    (h : is_locked fs (lock_file_path dir obj) = true) :
    lock fs dir obj d "lock" true l =
      (create_lock_dir fs dir, .error PyErr.lockFilePresentError) := by
  have henv : is_locked (create_lock_dir fs dir) (lock_file_path dir obj) = true := by
    rw [is_locked_create_lock_dir, h]
  simp only [lock, if_neg (show ¬("lock" : String) = "status" by decide),
    if_neg (show ¬("lock" : String) = "unlock" by decide), if_pos rfl, if_true,
    ensure_unlock, henv]

/-- The `unlock` branch with `ensure_lock_state` set on an unlocked resource
raises `LockFileNotPresentError` (via `ensure_lock`) with the files untouched. -/
theorem run_unlock_ensure_unlocked (fs : FS) (dir obj : String) (d : Dict)
    (h : is_locked fs (lock_file_path dir obj) = false) :
    lock fs dir obj d "unlock" false true =
      (create_lock_dir fs dir, .error PyErr.lockFileNotPresentError) := by
  have henv : is_locked (create_lock_dir fs dir) (lock_file_path dir obj) = false := by
    rw [is_locked_create_lock_dir, h]
  simp only [lock, if_neg (show ¬("unlock" : String) = "status" by decide), if_pos rfl,
    if_true, ensure_lock, henv]

/-- The `unlock` branch without the precondition flag on an unlocked resource
also raises `LockFileNotPresentError`: `os.remove` fails and the bare
`except` converts any failure into that same exception class. -/
theorem run_unlock_absent_noflag (fs : FS) (dir obj : String) (d : Dict)
    (h : is_locked fs (lock_file_path dir obj) = false) :
    lock fs dir obj d "unlock" false false =
      (create_lock_dir fs dir, .error PyErr.lockFileNotPresentError) := by
  have henv : fsExists (create_lock_dir fs dir) (lock_file_path dir obj) = false := by
    have hc := is_locked_create_lock_dir fs dir (lock_file_path dir obj)
    simp only [is_locked] at hc h
    rw [hc]; exact h
  simp only [lock, if_neg (show ¬("unlock" : String) = "status" by decide), if_pos rfl,
    if_true, Bool.false_eq_true, if_false, remove_lock_file, henv]

/-- The `unlock` branch on a locked resource (any flag value) removes the
file, verifies, and returns the merged dictionary. -/
theorem run_unlock_present (fs : FS) (dir obj : String) (d : Dict) (l : Bool)
    (h : is_locked fs (lock_file_path dir obj) = true) :
    lock fs dir obj d "unlock" false l =
      (fsRemoveFile (create_lock_dir fs dir) (lock_file_path dir obj),
       .ok (dictUpdate (dictUpdate d
           [("lock_file_location", Val.null),
            ("lock_file_status", Val.str "unlocked")])
         [("lock_action", Val.str "unlock")])) := by
  have henv : is_locked (create_lock_dir fs dir) (lock_file_path dir obj) = true := by
    rw [is_locked_create_lock_dir, h]
  have hex : fsExists (create_lock_dir fs dir) (lock_file_path dir obj) = true := henv
  cases l
  · simp only [lock, if_neg (show ¬("unlock" : String) = "status" by decide), if_pos rfl,
      Bool.false_eq_true, if_false, remove_lock_file, hex, if_true,
      is_locked_fsRemoveFile_self]
  · simp only [lock, if_neg (show ¬("unlock" : String) = "status" by decide), if_pos rfl,
      if_true, ensure_lock, henv, Bool.true_eq_false, if_false,
      remove_lock_file, hex, is_locked_fsRemoveFile_self]

/-- Any action outside the three recognized ones falls through to
`LockActionError` with the files untouched. -/
theorem run_invalid (fs : FS) (dir obj : String) (d : Dict) (a : String) (u l : Bool)
    (h1 : a ≠ "status") (h2 : a ≠ "unlock") (h3 : a ≠ "lock") :
    lock fs dir obj d a u l =
      (create_lock_dir fs dir, .error PyErr.lockActionError) := by
  show (if a = "status" then _ else _) = _
  rw [if_neg h1, if_neg h2, if_neg h3]

/-! ### Claim C5: the status action -/

/-- Claim C5: for every filesystem state and input metadata, the `status`
action performs no mutation of the lock path (the file map is unchanged)
and returns the input metadata merged with `lock_file_status` ("locked"
iff the lock path exists) and `lock_file_location` (the lock path when
locked, null when unlocked), plus `lock_action: "status"`. -/
theorem c5_status_action (fs : FS) (dir obj : String) (d : Dict) (u l : Bool) :
    (lock fs dir obj d "status" u l).1.files = fs.files ∧
    (lock fs dir obj d "status" u l).2 = .ok (dictUpdate (dictUpdate d
      [("lock_file_location",
          if is_locked fs (lock_file_path dir obj) then Val.str (lock_file_path dir obj)
          else Val.null),
       ("lock_file_status",
          Val.str (if is_locked fs (lock_file_path dir obj) then "locked" else "unlocked"))])
      [("lock_action", Val.str "status")]) := by
  constructor
  · rw [run_status]
    exact create_lock_dir_files fs dir
  · rw [run_status]
    simp only [is_locked_create_lock_dir]
    cases h : is_locked fs (lock_file_path dir obj) <;> simp [h]

/-! ### Claim C6: lock with requireUnlockedFirst on a locked resource -/

/-- Claim C6: for every already-locked resource, the `lock` action with
`ensure_unlock_state` (requireUnlockedFirst) set raises
`LockFilePresentError` (the AlreadyLocked kind) before any mutation: the
whole file map, in particular the existing lock path and its content, is
exactly as before. -/
theorem c6_already_locked_precondition (fs : FS) (dir obj : String) (d : Dict) (l : Bool)
    (h : is_locked fs (lock_file_path dir obj) = true) :
    lock fs dir obj d "lock" true l =
      (create_lock_dir fs dir, .error PyErr.lockFilePresentError) ∧
    (lock fs dir obj d "lock" true l).1.files = fs.files := by
  have hrun := run_lock_ensure_locked fs dir obj d l h
  refine ⟨hrun, ?_⟩
  rw [hrun]
  exact create_lock_dir_files fs dir

/-- Witness for C6 on a concrete locked state. -/
theorem c6_already_locked_precondition_witness :
    is_locked sampleLocked (lock_file_path "d/" "r") = true ∧
    (lock sampleLocked "d/" "r" [] "lock" true false =
      (create_lock_dir sampleLocked "d/", .error PyErr.lockFilePresentError) ∧
    (lock sampleLocked "d/" "r" [] "lock" true false).1.files = sampleLocked.files) :=
  ⟨by decide, c6_already_locked_precondition sampleLocked "d/" "r" [] false (by decide)⟩

/-! ### Claim C7: unlock with requireLockedFirst on an unlocked resource -/

/-- Claim C7 counterexample: the claim says the `unlock` action with
`ensure_lock_state` (requireLockedFirst) set on an unlocked resource
raises `NotLocked` and performs no mutation of the filesystem state.  The
error is raised, but the controller first ensures the lock directory
exists (line 163 runs before any branch), so starting from a state with no
directories the filesystem state IS mutated: the directory "d/" now exists. -/
theorem c7_counterexample :
    (lock sampleNoDir "d/" "r" [] "unlock" false true).2 =
      .error PyErr.lockFileNotPresentError ∧
    (lock sampleNoDir "d/" "r" [] "unlock" false true).1.dirs = ["d/"] ∧
    sampleNoDir.dirs = [] := by decide

/-- Claim C7 (amended): for every unlocked resource, the `unlock` action
with `ensure_lock_state` set raises `LockFileNotPresentError` (the
NotLocked kind) and performs no mutation of the filesystem state beyond
ensuring the lock directory exists: the file map is unchanged. -/
theorem c7_not_locked_precondition (fs : FS) (dir obj : String) (d : Dict)
    (h : is_locked fs (lock_file_path dir obj) = false) :
    lock fs dir obj d "unlock" false true =
      (create_lock_dir fs dir, .error PyErr.lockFileNotPresentError) ∧
    (lock fs dir obj d "unlock" false true).1.files = fs.files := by
  have hrun := run_unlock_ensure_unlocked fs dir obj d h
  refine ⟨hrun, ?_⟩
  rw [hrun]
  exact create_lock_dir_files fs dir

/-- Witness for the amended C7 on a concrete unlocked state. -/
theorem c7_not_locked_precondition_witness :
    is_locked sampleEmpty (lock_file_path "d/" "r") = false ∧
    (lock sampleEmpty "d/" "r" [] "unlock" false true =
      (create_lock_dir sampleEmpty "d/", .error PyErr.lockFileNotPresentError) ∧
    (lock sampleEmpty "d/" "r" [] "unlock" false true).1.files = sampleEmpty.files) :=
  ⟨by decide, c7_not_locked_precondition sampleEmpty "d/" "r" [] (by decide)⟩

/-! ### Claim C9: invalid action -/

/-- Claim C9: for every action value outside status/lock/unlock and every
prior filesystem state, the controller raises `LockActionError` (the
InvalidAction kind) and creates no file: the file map is unchanged. -/
theorem c9_invalid_action (fs : FS) (dir obj : String) (d : Dict) (a : String) (u l : Bool)
    (h1 : a ≠ "status") (h2 : a ≠ "unlock") (h3 : a ≠ "lock") :
    lock fs dir obj d a u l = (create_lock_dir fs dir, .error PyErr.lockActionError) ∧
    (lock fs dir obj d a u l).1.files = fs.files := by
  have hrun := run_invalid fs dir obj d a u l h1 h2 h3
  refine ⟨hrun, ?_⟩
  rw [hrun]
  exact create_lock_dir_files fs dir

/-- Witness for C9 with the spec's example action "wipe". -/
theorem c9_invalid_action_witness :
    ("wipe" ≠ "status" ∧ "wipe" ≠ "unlock" ∧ "wipe" ≠ "lock") ∧
    (lock sampleLocked "d/" "r" [] "wipe" false false =
      (create_lock_dir sampleLocked "d/", .error PyErr.lockActionError) ∧
    (lock sampleLocked "d/" "r" [] "wipe" false false).1.files = sampleLocked.files) :=
  ⟨⟨by decide, by decide, by decide⟩,
   c9_invalid_action sampleLocked "d/" "r" [] "wipe" false false
     (by decide) (by decide) (by decide)⟩

/-! ### Claim C10: re-locking with the default flags overwrites -/

/-- Claim C10: for every already-locked resource, the `lock` action with
`ensure_unlock_state=false` (the default) succeeds without error and
replaces the existing lock file's persisted content with the newly merged
metadata, silently overwriting the previous holder's metadata. -/
theorem c10_relock_overwrites (fs : FS) (dir obj : String) (d : Dict) (c : Content)
    (h : fs.files (lock_file_path dir obj) = some c) :
    (lock fs dir obj d "lock" false false).1.files (lock_file_path dir obj) =
      some (Content.yaml (dictUpdate d
        [("lock_file_location", Val.str (lock_file_path dir obj)),
         ("lock_file_status", Val.str "locked")])) ∧
    (lock fs dir obj d "lock" false false).2 =
      .ok (dictUpdate (dictUpdate d
        [("lock_file_location", Val.str (lock_file_path dir obj)),
         ("lock_file_status", Val.str "locked")])
        [("lock_action", Val.str "lock")]) := by
  rw [run_lock_noflags]
  exact ⟨fsWrite_at _ _ _, rfl⟩

/-- Witness for C10: re-locking over alice's lock file replaces its content. -/
theorem c10_relock_overwrites_witness :
    sampleLocked.files (lock_file_path "d/" "r") =
      some (Content.yaml [("owner", Val.str "alice")]) ∧
    ((lock sampleLocked "d/" "r" [("owner", Val.str "bob")] "lock" false false).1.files
        (lock_file_path "d/" "r") =
      some (Content.yaml (dictUpdate [("owner", Val.str "bob")]
        [("lock_file_location", Val.str (lock_file_path "d/" "r")),
         ("lock_file_status", Val.str "locked")])) ∧
    (lock sampleLocked "d/" "r" [("owner", Val.str "bob")] "lock" false false).2 =
      .ok (dictUpdate (dictUpdate [("owner", Val.str "bob")]
        [("lock_file_location", Val.str (lock_file_path "d/" "r")),
         ("lock_file_status", Val.str "locked")])
        [("lock_action", Val.str "lock")])) :=
  ⟨by decide, c10_relock_overwrites sampleLocked "d/" "r" [("owner", Val.str "bob")]
    (Content.yaml [("owner", Val.str "alice")]) (by decide)⟩

/-! ### Claim C4: the on-disk lock path -/

/-- Claim C4 counterexample: the claim says the on-disk lock path equals
`<directory>/<resource_name>.lock` — the directory, a path separator, the
resource name, and the suffix ".lock".  The source concatenates with no
separator: with directory "d" and resource "r" the path used is "dr.lock",
not "d/r.lock", and the lock action creates the file at "dr.lock". -/
theorem c4_counterexample :
    lock_file_path "d" "r" = "dr.lock" ∧
    ("dr.lock" : String) ≠ "d" ++ "/" ++ "r" ++ ".lock" ∧
    ((lock sampleNoDir "d" "r" [] "lock" false false).1.files "d/r.lock" = none ∧
     ((lock sampleNoDir "d" "r" [] "lock" false false).1.files "dr.lock").isSome = true) := by
  decide

/-- Claim C4 (amended): for every directory string and resource name, the
on-disk lock path used by the actions equals the plain concatenation
`directory ++ resource_name ++ ".lock"`, with no separator inserted: the
lock action persists the merged metadata at exactly that path, the status
action reports that path as the location once it exists, and the unlock
action removes the file at that path. -/
theorem c4_lock_path_concatenation (fs : FS) (dir obj : String) (d : Dict) :
    (lock fs dir obj d "lock" false false).1.files (dir ++ (obj ++ ".lock")) =
      some (Content.yaml (dictUpdate d
        [("lock_file_location", Val.str (dir ++ (obj ++ ".lock"))),
         ("lock_file_status", Val.str "locked")])) ∧
    (lock (fsWrite fs (dir ++ (obj ++ ".lock")) Content.empty) dir obj d "status" false false).2 =
      .ok (dictUpdate (dictUpdate d
        [("lock_file_location", Val.str (dir ++ (obj ++ ".lock"))),
         ("lock_file_status", Val.str "locked")])
        [("lock_action", Val.str "status")]) ∧
    (lock (fsWrite fs (dir ++ (obj ++ ".lock")) Content.empty) dir obj d "unlock" false false).1.files
      (dir ++ (obj ++ ".lock")) = none := by
  have hp : lock_file_path dir obj = dir ++ (obj ++ ".lock") := rfl
  refine ⟨?_, ?_, ?_⟩
  · rw [run_lock_noflags, hp]
    exact fsWrite_at _ _ _
  · rw [run_status]
    have hl : is_locked (create_lock_dir (fsWrite fs (dir ++ (obj ++ ".lock")) Content.empty) dir)
        (lock_file_path dir obj) = true := by
      rw [is_locked_create_lock_dir, hp]
      exact is_locked_fsWrite_self _ _ _
    rw [hl]
    simp only [Bool.true_eq_false, if_false, hp]
  · have hl : is_locked (fsWrite fs (dir ++ (obj ++ ".lock")) Content.empty)
        (lock_file_path dir obj) = true := by
      rw [hp]
      exact is_locked_fsWrite_self _ _ _
    rw [run_unlock_present _ dir obj d false hl, hp]
    exact fsRemoveFile_at _ _

/-! ### Claim C1: metadata fidelity of the persisted lock file -/

/-- Claim C1 counterexample: the claim says the persisted lock file content
(not only the returned mapping) contains the `lock_action` key.  Locking
with metadata `{msg: "maintenance"}` persists a file holding exactly the
supplied pair plus `lock_file_location` and `lock_file_status` — no
`lock_action` key — while the returned mapping does contain
`lock_action: "lock"`: the source adds `lock_action` (line 240) only after
`write_to_lock_file` (line 224) has serialized the dictionary. -/
theorem c1_counterexample :
    (lock sampleEmpty "d/" "r" [("msg", Val.str "maintenance")] "lock" false false).1.files
        "d/r.lock" =
      some (Content.yaml
        [("msg", Val.str "maintenance"),
         ("lock_file_location", Val.str "d/r.lock"),
         ("lock_file_status", Val.str "locked")]) ∧
    fileYamlGet (lock sampleEmpty "d/" "r" [("msg", Val.str "maintenance")] "lock" false false).1
      "d/r.lock" "lock_action" = none ∧
    (lock sampleEmpty "d/" "r" [("msg", Val.str "maintenance")] "lock" false false).2 =
      .ok [("msg", Val.str "maintenance"),
           ("lock_file_location", Val.str "d/r.lock"),
           ("lock_file_status", Val.str "locked"),
           ("lock_action", Val.str "lock")] := by
  decide

/-- Claim C1 (amended): for every metadata mapping, the lock action persists
a lock file whose deserialized content includes every supplied key-value
pair (for keys other than the two reserved ones), `lock_file_status:
"locked"`, and the correct `lock_file_location`; `lock_action: "lock"` is
present in the returned mapping but appears in the persisted file content
only when the supplied metadata itself carries a `lock_action` key, since
the source adds it after the write. -/
theorem c1_metadata_fidelity (fs : FS) (dir obj : String) (d : Dict) (k : String) (v : Val)
    (hk : dictGet d k = some v) (h1 : k ≠ "lock_file_location") (h2 : k ≠ "lock_file_status") :
    (lock fs dir obj d "lock" false false).1.files (lock_file_path dir obj) =
      some (Content.yaml (dictUpdate d
        [("lock_file_location", Val.str (lock_file_path dir obj)),
         ("lock_file_status", Val.str "locked")])) ∧
    dictGet (dictUpdate d
        [("lock_file_location", Val.str (lock_file_path dir obj)),
         ("lock_file_status", Val.str "locked")]) k = some v ∧
    dictGet (dictUpdate d
        [("lock_file_location", Val.str (lock_file_path dir obj)),
         ("lock_file_status", Val.str "locked")]) "lock_file_status" =
      some (Val.str "locked") ∧
    dictGet (dictUpdate d
        [("lock_file_location", Val.str (lock_file_path dir obj)),
         ("lock_file_status", Val.str "locked")]) "lock_file_location" =
      some (Val.str (lock_file_path dir obj)) ∧
    dictGet (dictUpdate d
        [("lock_file_location", Val.str (lock_file_path dir obj)),
         ("lock_file_status", Val.str "locked")]) "lock_action" =
      dictGet d "lock_action" ∧
    (lock fs dir obj d "lock" false false).2 =
      .ok (dictUpdate (dictUpdate d
        [("lock_file_location", Val.str (lock_file_path dir obj)),
         ("lock_file_status", Val.str "locked")])
        [("lock_action", Val.str "lock")]) ∧
    dictGet (dictUpdate (dictUpdate d
        [("lock_file_location", Val.str (lock_file_path dir obj)),
         ("lock_file_status", Val.str "locked")])
        [("lock_action", Val.str "lock")]) "lock_action" = some (Val.str "lock") := by
  refine ⟨?_, ?_, ?_, ?_, ?_, ?_, ?_⟩
  · rw [run_lock_noflags]
    exact fsWrite_at _ _ _
  · rw [dictUpdate_two, dictGet_set_ne _ _ _ _ (Ne.symm h2),
      dictGet_set_ne _ _ _ _ (Ne.symm h1), hk]
  · rw [dictUpdate_two, dictGet_set_self]
  · rw [dictUpdate_two,
      dictGet_set_ne _ _ _ _ (by decide : ("lock_file_status" : String) ≠ "lock_file_location"),
      dictGet_set_self]
  · rw [dictUpdate_two,
      dictGet_set_ne _ _ _ _ (by decide : ("lock_file_status" : String) ≠ "lock_action"),
      dictGet_set_ne _ _ _ _ (by decide : ("lock_file_location" : String) ≠ "lock_action")]
  · rw [run_lock_noflags]
  · rw [dictUpdate_one, dictGet_set_self]

/-- Witness for the amended C1 with the spec's example pair. -/
theorem c1_metadata_fidelity_witness :
    (dictGet [("msg", Val.str "maintenance")] "msg" = some (Val.str "maintenance") ∧
     ("msg" : String) ≠ "lock_file_location" ∧ ("msg" : String) ≠ "lock_file_status") ∧
    ((lock sampleEmpty "d/" "r" [("msg", Val.str "maintenance")] "lock" false false).1.files
        (lock_file_path "d/" "r") =
      some (Content.yaml (dictUpdate [("msg", Val.str "maintenance")]
        [("lock_file_location", Val.str (lock_file_path "d/" "r")),
         ("lock_file_status", Val.str "locked")])) ∧
    dictGet (dictUpdate [("msg", Val.str "maintenance")]
        [("lock_file_location", Val.str (lock_file_path "d/" "r")),
         ("lock_file_status", Val.str "locked")]) "msg" = some (Val.str "maintenance") ∧
    dictGet (dictUpdate [("msg", Val.str "maintenance")]
        [("lock_file_location", Val.str (lock_file_path "d/" "r")),
         ("lock_file_status", Val.str "locked")]) "lock_file_status" =
      some (Val.str "locked") ∧
    dictGet (dictUpdate [("msg", Val.str "maintenance")]
        [("lock_file_location", Val.str (lock_file_path "d/" "r")),
         ("lock_file_status", Val.str "locked")]) "lock_file_location" =
      some (Val.str (lock_file_path "d/" "r")) ∧
    dictGet (dictUpdate [("msg", Val.str "maintenance")]
        [("lock_file_location", Val.str (lock_file_path "d/" "r")),
         ("lock_file_status", Val.str "locked")]) "lock_action" =
      dictGet [("msg", Val.str "maintenance")] "lock_action" ∧
    (lock sampleEmpty "d/" "r" [("msg", Val.str "maintenance")] "lock" false false).2 =
      .ok (dictUpdate (dictUpdate [("msg", Val.str "maintenance")]
        [("lock_file_location", Val.str (lock_file_path "d/" "r")),
         ("lock_file_status", Val.str "locked")])
        [("lock_action", Val.str "lock")]) ∧
    dictGet (dictUpdate (dictUpdate [("msg", Val.str "maintenance")]
        [("lock_file_location", Val.str (lock_file_path "d/" "r")),
         ("lock_file_status", Val.str "locked")])
        [("lock_action", Val.str "lock")]) "lock_action" = some (Val.str "lock")) :=
  ⟨⟨by decide, by decide, by decide⟩,
   c1_metadata_fidelity sampleEmpty "d/" "r" [("msg", Val.str "maintenance")] "msg"
     (Val.str "maintenance") (by decide) (by decide) (by decide)⟩

/-! ### Claim C2: distinguishability of the error taxonomy -/

/-- Claim C2 counterexample: the claim says the NotLocked precondition
failure, the UnlockFailed removal failure, and the LockCreationFailed
post-write verification failure are pairwise-distinct error kinds.  On an
unlocked resource, the NotLocked precondition failure (`ensure_lock`,
line 52) and the UnlockFailed removal failure (the bare `except` at
line 190) raise the very same exception class `LockFileNotPresentError` —
the same class the post-write verification raises at line 233 — so these
kinds share a single error signal. -/
theorem c2_counterexample :
    (lock sampleEmpty "d/" "r" [] "unlock" false true).2 =
      (lock sampleEmpty "d/" "r" [] "unlock" false false).2 ∧
    (lock sampleEmpty "d/" "r" [] "unlock" false true).2 =
      .error PyErr.lockFileNotPresentError := by
  decide

/-- Claim C2 (amended): the error kinds are not all distinct.  The
NotLocked precondition failure and the UnlockFailed removal failure (and,
in the source, the LockCreationFailed post-write verification at line 233)
are all raised as the single class `LockFileNotPresentError`, while
AlreadyLocked (`LockFilePresentError`), InvalidAction (`LockActionError`),
and UnlockVerificationFailed (`LockFileNotPresentForRemoval`) are each
distinct from it. -/
theorem c2_error_taxonomy (fs : FS) (dir obj : String) (d : Dict)
    (h : is_locked fs (lock_file_path dir obj) = false) :
    (lock fs dir obj d "unlock" false true).2 = .error PyErr.lockFileNotPresentError ∧
    (lock fs dir obj d "unlock" false false).2 = .error PyErr.lockFileNotPresentError ∧
    (lock (fsWrite fs (lock_file_path dir obj) Content.empty) dir obj d "lock" true false).2 =
      .error PyErr.lockFilePresentError ∧
    (lock fs dir obj d "wipe" false false).2 = .error PyErr.lockActionError ∧
    PyErr.lockFilePresentError ≠ PyErr.lockFileNotPresentError ∧
    PyErr.lockActionError ≠ PyErr.lockFileNotPresentError ∧
    PyErr.lockFileNotPresentForRemoval ≠ PyErr.lockFileNotPresentError := by
  refine ⟨?_, ?_, ?_, ?_, by decide, by decide, by decide⟩
  · rw [run_unlock_ensure_unlocked fs dir obj d h]
  · rw [run_unlock_absent_noflag fs dir obj d h]
  · rw [run_lock_ensure_locked _ dir obj d false (is_locked_fsWrite_self _ _ _)]
  · rw [run_invalid fs dir obj d "wipe" false false (by decide) (by decide) (by decide)]

/-- Witness for the amended C2 on a concrete unlocked state. -/
theorem c2_error_taxonomy_witness :
    is_locked sampleEmpty (lock_file_path "d/" "r") = false ∧
    ((lock sampleEmpty "d/" "r" [] "unlock" false true).2 =
      .error PyErr.lockFileNotPresentError ∧
    (lock sampleEmpty "d/" "r" [] "unlock" false false).2 =
      .error PyErr.lockFileNotPresentError ∧
    (lock (fsWrite sampleEmpty (lock_file_path "d/" "r") Content.empty) "d/" "r" [] "lock"
        true false).2 = .error PyErr.lockFilePresentError ∧
    (lock sampleEmpty "d/" "r" [] "wipe" false false).2 = .error PyErr.lockActionError ∧
    PyErr.lockFilePresentError ≠ PyErr.lockFileNotPresentError ∧
    PyErr.lockActionError ≠ PyErr.lockFileNotPresentError ∧
    PyErr.lockFileNotPresentForRemoval ≠ PyErr.lockFileNotPresentError) :=
  ⟨by decide, c2_error_taxonomy sampleEmpty "d/" "r" [] (by decide)⟩

/-! ### Claim C8: lock/unlock round trip -/

/-- Claim C8 counterexample: the claim says that for every resource and
metadata, a successful lock followed by a successful unlock leaves the
lock directory exactly as before the lock call.  When the resource was
already locked beforehand (the default flags let the lock call succeed
anyway), the round trip consumes the pre-existing lock file: alice's lock
file is present before and absent afterwards. -/
theorem c8_counterexample :
    sampleLocked.files "d/r.lock" = some (Content.yaml [("owner", Val.str "alice")]) ∧
    (lock sampleLocked "d/" "r" [] "lock" false false).2 =
      .ok [("lock_file_location", Val.str "d/r.lock"),
           ("lock_file_status", Val.str "locked"),
           ("lock_action", Val.str "lock")] ∧
    (lock (lock sampleLocked "d/" "r" [] "lock" false false).1 "d/" "r" []
        "unlock" false false).2 =
      .ok [("lock_file_location", Val.null),
           ("lock_file_status", Val.str "unlocked"),
           ("lock_action", Val.str "unlock")] ∧
    (lock (lock sampleLocked "d/" "r" [] "lock" false false).1 "d/" "r" []
        "unlock" false false).1.files "d/r.lock" = none := by
  decide

/-- Claim C8 (amended): provided the resource is unlocked before the lock
call, a successful lock followed by a successful unlock on the same
resource leaves the lock directory exactly as before the lock call: the
file map is unchanged and the lock path is absent afterwards.  (Without
that proviso a pre-existing lock file is consumed by the round trip.) -/
theorem c8_round_trip (fs : FS) (dir obj : String) (d d2 : Dict)
    (h : fsExists fs (lock_file_path dir obj) = false) :
    (lock fs dir obj d "lock" false false).2 =
      .ok (dictUpdate (dictUpdate d
        [("lock_file_location", Val.str (lock_file_path dir obj)),
         ("lock_file_status", Val.str "locked")])
        [("lock_action", Val.str "lock")]) ∧
    (lock (lock fs dir obj d "lock" false false).1 dir obj d2 "unlock" false false).2 =
      .ok (dictUpdate (dictUpdate d2
        [("lock_file_location", Val.null),
         ("lock_file_status", Val.str "unlocked")])
        [("lock_action", Val.str "unlock")]) ∧
    (lock (lock fs dir obj d "lock" false false).1 dir obj d2 "unlock" false false).1.files =
      fs.files ∧
    fsExists (lock (lock fs dir obj d "lock" false false).1 dir obj d2 "unlock" false false).1
      (lock_file_path dir obj) = false := by
  have hstep1 := run_lock_noflags fs dir obj d
  have hlocked : is_locked (lock fs dir obj d "lock" false false).1
      (lock_file_path dir obj) = true := by
    rw [hstep1]
    exact is_locked_fsWrite_self _ _ _
  have hdirs : (lock fs dir obj d "lock" false false).1.dirs.contains dir = true := by
    rw [hstep1]
    exact create_lock_dir_dirs_contains fs dir
  have hstep2 := run_unlock_present (lock fs dir obj d "lock" false false).1 dir obj d2
    false hlocked
  rw [create_lock_dir_of_contains _ _ hdirs] at hstep2
  refine ⟨?_, ?_, ?_, ?_⟩
  · rw [hstep1]
  · rw [hstep2]
  · rw [hstep2]
    funext q
    by_cases hq : q = lock_file_path dir obj
    · subst hq
      rw [fsRemoveFile_at]
      exact (files_eq_none_of_fsExists_false fs _ h).symm
    · rw [fsRemoveFile_ne _ _ _ hq, hstep1, fsWrite_ne _ _ _ _ hq, fsTouch_ne _ _ _ hq]
      exact congrFun (create_lock_dir_files fs dir) q
  · rw [hstep2]
    exact is_locked_fsRemoveFile_self _ _

/-- Witness for the amended C8 on a concrete initially-unlocked state. -/
theorem c8_round_trip_witness :
    fsExists sampleEmpty (lock_file_path "d/" "r") = false ∧
    ((lock sampleEmpty "d/" "r" [("msg", Val.str "m")] "lock" false false).2 =
      .ok (dictUpdate (dictUpdate [("msg", Val.str "m")]
        [("lock_file_location", Val.str (lock_file_path "d/" "r")),
         ("lock_file_status", Val.str "locked")])
        [("lock_action", Val.str "lock")]) ∧
    (lock (lock sampleEmpty "d/" "r" [("msg", Val.str "m")] "lock" false false).1 "d/" "r" []
        "unlock" false false).2 =
      .ok (dictUpdate (dictUpdate []
        [("lock_file_location", Val.null),
         ("lock_file_status", Val.str "unlocked")])
        [("lock_action", Val.str "unlock")]) ∧
    (lock (lock sampleEmpty "d/" "r" [("msg", Val.str "m")] "lock" false false).1 "d/" "r" []
        "unlock" false false).1.files = sampleEmpty.files ∧
    fsExists (lock (lock sampleEmpty "d/" "r" [("msg", Val.str "m")] "lock" false false).1
        "d/" "r" [] "unlock" false false).1 (lock_file_path "d/" "r") = false) :=
  ⟨by decide, c8_round_trip sampleEmpty "d/" "r" [("msg", Val.str "m")] [] (by decide)⟩

/-! ### Claim C3: the default metadata mapping across invocations -/

/-- Claim C3: the spec requires the default empty metadata mapping to be
fresh per call, with no state leaking between unrelated invocations
through the default.  The source instead declares `lock_data={}`, a single
mutable dictionary evaluated once and mutated in place by every call that
omits the argument, so a metadata-omitting call starts from the dictionary
the previous metadata-omitting call left behind (`sharedDict`).  This
theorem exhibits the leak: after a first call `lock('d/', 'a')` (default
`status` action), a second call `lock('d/', 'b', action='lock')` persists a
lock file `d/b.lock` whose content carries `lock_action: "status"` — a pair
originating from the first invocation — whereas under the fresh-per-call
semantics the spec requires (third conjunct, empty dictionary) the
persisted file has no `lock_action` key at all. -/
theorem c3_shared_default_leak :
    sharedCall1.2 = .ok [("lock_file_location", Val.null),
      ("lock_file_status", Val.str "unlocked"), ("lock_action", Val.str "status")] ∧
    sharedDict = [("lock_file_location", Val.null),
      ("lock_file_status", Val.str "unlocked"), ("lock_action", Val.str "status")] ∧
    fileYamlGet (lock sharedCall1.1 "d/" "b" sharedDict "lock" false false).1
      "d/b.lock" "lock_action" = some (Val.str "status") ∧
    fileYamlGet (lock sharedCall1.1 "d/" "b" [] "lock" false false).1
      "d/b.lock" "lock_action" = none := by
  decide

end Pylok

